import Mathlib

/-!
Shallow embedding of the HTTP/HTTPS MITM proxy core of bettercap-ng
(src/modules/http_proxy_base.go): host-certificate cache and forging,
host filtering, the interception hook dispatcher, the SNI/CONNECT bridge,
the CONNECT-adapter write interception, and the Configure/ConfigureTLS/Stop
lifecycle, together with theorems settling the spec's claims about them.
-/

namespace Bettercap

/-- Bytes are modelled as natural numbers. -/
abbrev Byte := Nat

/-- Forged certificates are modelled abstractly by an identifier; the claims
under study only compare certificates for identity, never inspect them. -/
abbrev Cert := Nat

/-- Errors are modelled by their message string. -/
abbrev Err := String

/-- Models Go `strings.SplitN(s, sep, 2)` on a character list: the part before
the first occurrence of `sep`, and, when `sep` occurs, the remainder after it. -/
def splitOnFirst (sep : Char) : List Char → List Char × Option (List Char)
  | [] => ([], none)
  | c :: rest =>
    if c = sep then ([], some rest)
    else
      let r := splitOnFirst sep rest
      (c :: r.1, r.2)

/-- Models Go `strings.HasPrefix(s, pre)`. -/
def hasPrefix (s pre : String) : Bool :=
  pre.data.isPrefixOf s.data

/-- Helper for `atoi`: folds a non-empty run of decimal digits, failing on any
non-digit character (Go `strconv.Atoi` rejects the whole string then). -/
def digitsToNatAux : List Char → Nat → Option Nat
  | [], acc => some acc
  | c :: rest, acc =>
    if c.isDigit then digitsToNatAux rest (acc * 10 + (c.toNat - 48)) else none

/-- Digits of a non-empty list to a natural number; `none` on empty input or
any non-digit. -/
def digitsToNat : List Char → Option Nat
  | [] => none
  | c :: rest => digitsToNatAux (c :: rest) 0

/-- Models Go `strconv.Atoi`: optional sign followed by one or more decimal
digits; every other string is an error (`none`). Overflow is not modelled:
the claims under study only involve small ports. -/
def atoi (s : String) : Option Int :=
  match s.data with
  | '+' :: rest => (digitsToNat rest).map Int.ofNat
  | '-' :: rest => (digitsToNat rest).map (fun n => -(Int.ofNat n))
  | l => (digitsToNat l).map Int.ofNat

/-- The hostname/port split performed by `TLSConfigFromCA`
(src/modules/http_proxy_base.go lines 173-181): `strings.SplitN(host, ":", 2)`,
hostname is the first part, port defaults to 443 and is taken from
`strconv.Atoi` of the second part when that parses. -/
def parseHostPort (host : String) : String × Int :=
  let parts := splitOnFirst ':' host.data
  let hostname := String.mk parts.1
  match parts.2 with
  | none => (hostname, 443)
  | some portPart =>
    match atoi (String.mk portPart) with
    | some n => (hostname, n)
    | none => (hostname, 443)

/-- Cache key: hostname and port. -/
abbrev CertKey := String × Int

/-- Modelled from the spec: `getCachedCert`, the certificate-cache lookup used
by `TLSConfigFromCA`, lives in another file of the repository that is not part
of the sources given; per the spec the cache is keyed by `(hostname, port)`
and a hit returns the stored certificate. Modelled as association-list lookup. -/
def getCachedCert (hostname : String) (port : Int) : List (CertKey × Cert) → Option Cert
  | [] => none
  | e :: rest =>
    if e.1 = (hostname, port) then some e.2 else getCachedCert hostname port rest

/-- Modelled from the spec: `setCachedCert`, the certificate-cache store used
by `TLSConfigFromCA`; stores the certificate under `(hostname, port)`; entries
are never evicted. -/
def setCachedCert (hostname : String) (port : Int) (cert : Cert)
    (cache : List (CertKey × Cert)) : List (CertKey × Cert) :=
  ((hostname, port), cert) :: cache

/-- The signing environment: `btls.SignCertificateForHost` generates a fresh
certificate (or fails) on every invocation, so it is modelled as a stream of
outcomes indexed by the invocation count, which lets a theorem observe how
many signing operations a sequence of calls performs. -/
structure SignEnv where
  signResult : Nat → Except Err Cert

/-- The mutable state threaded through `TLSConfigFromCA` calls: the process
wide certificate cache and the number of signing invocations so far. -/
structure CacheState where
  cache : List (CertKey × Cert)
  signCount : Nat

deriving instance DecidableEq for CacheState

/-- The TLS configuration built by `TLSConfigFromCA`: `InsecureSkipVerify`
and the certificate list. -/
structure TLSConfig where
  insecureSkipVerify : Bool
  certificates : List Cert

deriving instance DecidableEq for TLSConfig

/-- The per-connection TLS-configuration function returned by
`TLSConfigFromCA` (src/modules/http_proxy_base.go lines 171-202): split the
host into hostname and port (port defaulting to 443), look the pair up in the
certificate cache, on a miss invoke the signing operation — an error is
returned as-is and nothing is cached, a fresh certificate is cached — and
build a `tls.Config` holding the certificate. -/
def tlsConfigFromCA (env : SignEnv) (host : String) (st : CacheState) :
    Except Err TLSConfig × CacheState :=
  let hp := parseHostPort host
  match getCachedCert hp.1 hp.2 st.cache with
  | some cert =>
    (Except.ok { insecureSkipVerify := true, certificates := [cert] }, st)
  | none =>
    match env.signResult st.signCount with
    | Except.error e =>
      (Except.error e, { st with signCount := st.signCount + 1 })
    | Except.ok cert =>
      (Except.ok { insecureSkipVerify := true, certificates := [cert] },
       { cache := setCachedCert hp.1 hp.2 cert st.cache,
         signCount := st.signCount + 1 })

deriving instance DecidableEq for Except

/-- The fixed host blacklist of `doProxy` (src/modules/http_proxy_base.go
lines 113-116). -/
def blacklist : List String := ["localhost", "127.0.0.1"]

/-- The host filter `doProxy` (src/modules/http_proxy_base.go lines 112-131):
reject the empty host, reject any host starting with a blacklist entry,
accept everything else. A pure function of the request host. -/
def doProxy (host : String) : Bool :=
  if host = "" then false
  else if blacklist.any (fun b => hasPrefix host b) then false
  else true

/-- The fields of an `http.Request` the embedded code reads or writes. -/
structure Request where
  method : String
  host : String
  opaqueURL : String
  urlHost : String
  urlPath : String
  remoteAddr : String

deriving instance DecidableEq for Request

/-- A JavaScript-hook action (`JSResponse`): the claims only observe its body. -/
structure JSResponse where
  body : String

deriving instance DecidableEq for JSResponse

/-- An `http.Response` as far as the embedded code observes it: the request it
answers and its body bytes. -/
structure Response where
  request : Request
  body : String

deriving instance DecidableEq for Response

/-- `jsres.ToResponse(req)`: builds the synthetic terminal response from the
hook action's body for the given request. -/
def toResponse (jsres : JSResponse) (req : Request) : Response :=
  { request := req, body := jsres.body }

/-- The proxy-script hook capability: `OnRequest` and `OnResponse`, a `none`
result meaning pass-through. -/
structure ProxyScript where
  onRequest : Request → Option JSResponse
  onResponse : Response → Option JSResponse

/-- The event payload recorded by `logAction`
(src/modules/http_proxy_base.go lines 96-110). -/
structure SpoofedEvent where
  toAddr : String
  method : String
  host : String
  path : String
  size : Nat

deriving instance DecidableEq for SpoofedEvent

/-- `logAction`: the event recorded to the session's event sink for a
synthetic response; `To` is `strings.Split(req.RemoteAddr, ":")[0]`, i.e. the
remote address up to its first colon, `Size` is `len(jsres.Body)`. -/
def logAction (req : Request) (jsres : JSResponse) : SpoofedEvent :=
  { toAddr := String.mk (splitOnFirst ':' req.remoteAddr.data).1,
    method := req.method,
    host := req.host,
    path := req.urlPath,
    size := jsres.body.data.length }

/-- Which hook-capability handlers an exchange invoked. -/
inductive Leg where
  | request : Leg
  | response : Leg

deriving instance DecidableEq for Leg

/-- The `OnRequest` handler installed by `NewHTTPProxy`
(src/modules/http_proxy_base.go lines 68-78): with a script loaded, ask its
request hook; a non-nil action records one event and yields the synthetic
response; otherwise pass through. Returns the (request, optional synthetic
response), the events recorded, and the hook legs invoked. -/
def onRequestHandler (script : Option ProxyScript) (req : Request) :
    (Request × Option Response) × List SpoofedEvent × List Leg :=
  match script with
  | none => ((req, none), [], [])
  | some s =>
    match s.onRequest req with
    | some jsres =>
      ((req, some (toResponse jsres req)), [logAction req jsres], [Leg.request])
    | none => ((req, none), [], [Leg.request])

/-- The `OnResponse` handler installed by `NewHTTPProxy`
(src/modules/http_proxy_base.go lines 80-91): with a script loaded, ask its
response hook; a non-nil action records one event and replaces the response.
Returns the response, the events recorded, and the hook legs invoked. -/
def onResponseHandler (script : Option ProxyScript) (res : Response) :
    Response × List SpoofedEvent × List Leg :=
  match script with
  | none => (res, [], [])
  | some s =>
    match s.onResponse res with
    | some jsres =>
      (toResponse jsres res.request, [logAction res.request jsres], [Leg.response])
    | none => (res, [], [Leg.response])

/-- Modelled from the spec: the generic proxy core's request/response dispatch
(the goproxy engine), whose source is not among the given files. Per the spec,
the request-leg handler runs first; a synthetic response from it short-circuits
the upstream round trip and the response leg entirely; otherwise the upstream
answers and the response-leg handler runs on its response. `upstream` models
the real destination. Returns the final response, the events recorded, and the
hook legs invoked. -/
def exchange (script : Option ProxyScript) (upstream : Request → Response)
    (req : Request) : Response × List SpoofedEvent × List Leg :=
  let r1 := onRequestHandler script req
  match r1.1.2 with
  | some syn => (syn, r1.2.1, r1.2.2)
  | none =>
    let res := upstream r1.1.1
    let r2 := onResponseHandler script res
    (r2.1, r1.2.1 ++ r2.2.1, r1.2.2 ++ r2.2.2)

/-- `net.JoinHostPort`: brackets the host when it contains a colon. -/
def joinHostPort (host port : String) : String :=
  if host.data.contains ':' then "[" ++ host ++ "]:" ++ port
  else host ++ ":" ++ port

/-- The externally visible actions of the per-connection goroutine of
`httpsWorker`, in order. -/
inductive HandlerEffect where
  | logWarning : String → HandlerEffect
  | logDebug : String → HandlerEffect
  | closeConn : HandlerEffect
  | serve : Request → HandlerEffect

deriving instance DecidableEq for HandlerEffect

/-- The per-connection goroutine of `httpsWorker`
(src/modules/http_proxy_base.go lines 281-307). Its input is the outcome of
the third-party SNI peek `vhost.TLS(c)`: an error for malformed/non-TLS bytes,
otherwise the extracted hostname (empty when the ClientHello carries no SNI).
On a peek error the goroutine logs a warning and returns; on an empty hostname
it logs a warning and returns; otherwise it builds the synthetic CONNECT
request and hands it to `p.Proxy.ServeHTTP`. The result is the ordered list
of the goroutine's externally visible actions. -/
def httpsWorkerConn (sniResult : Except Err String) : List HandlerEffect :=
  match sniResult with
  | Except.error e =>
    [HandlerEffect.logWarning ("Error reading SNI: " ++ e ++ ".")]
  | Except.ok hostname =>
    if hostname = "" then
      [HandlerEffect.logWarning "Client does not support SNI."]
    else
      [HandlerEffect.logDebug ("Got new SNI for " ++ hostname),
       HandlerEffect.serve
         { method := "CONNECT",
           host := hostname,
           opaqueURL := hostname,
           urlHost := joinHostPort hostname "443",
           urlPath := "",
           remoteAddr := "" }]

/-- The underlying raw connection of the CONNECT adapter, modelled as a byte
sink recording every byte written to it; a write accepts the whole buffer and
reports its length, as a healthy `net.Conn` does. -/
structure ConnState where
  written : List Byte

deriving instance DecidableEq for ConnState

/-- The literal successful-CONNECT handshake bytes
`"HTTP/1.0 200 OK\r\n\r\n"` that `dumbResponseWriter.Write` throws away. -/
def okHandshakeBytes : List Byte :=
  "HTTP/1.0 200 OK\r\n\r\n".data.map Char.toNat

/-- `dumbResponseWriter.Write` (src/modules/http_proxy_base.go lines 249-254):
a buffer equal to the literal handshake bytes is discarded (its length
reported, nothing written to the raw connection); any other buffer is written
to the raw connection. -/
def dumbWrite (buf : List Byte) (conn : ConnState) : Nat × ConnState :=
  if buf = okHandshakeBytes then (buf.length, conn)
  else (buf.length, { written := conn.written ++ buf })

/-- The firewall `Redirection` descriptor. -/
structure Redirection where
  interfaceName : String
  protocol : String
  srcPort : Int
  dstAddress : String
  dstPort : Int

deriving instance DecidableEq for Redirection

/-- The externally visible actions of `Stop`, in order. -/
inductive StopEffect where
  | disableRedirection : Redirection → StopEffect
  | closeSNIListener : StopEffect
  | gracefulShutdown : Nat → StopEffect

deriving instance DecidableEq for StopEffect

/-- The firewall service as `Stop` sees it: the result of asking it to
remove a redirection (`none` = success). -/
structure FirewallEnv where
  disableRedirectionResult : Redirection → Option Err

/-- The proxy fields `Stop` reads or writes. -/
structure ProxyState where
  redirection : Option Redirection
  isTLS : Bool
  isRunning : Bool

deriving instance DecidableEq for ProxyState

/-- The mode-dependent tail of `Stop` (src/modules/http_proxy_base.go lines
338-346): TLS mode flips `isRunning` to false and closes the raw SNI accept
listener immediately; PLAIN mode performs `Server.Shutdown` with a
5-second timeout. -/
def stopShutdown (p : ProxyState) (effs : List StopEffect) :
    Option Err × ProxyState × List StopEffect :=
  if p.isTLS then
    (none, { p with isRunning := false }, effs ++ [StopEffect.closeSNIListener])
  else
    (none, p, effs ++ [StopEffect.gracefulShutdown 5])

/-- `Stop` (src/modules/http_proxy_base.go lines 329-347): when a redirection
is active, first ask the firewall service to remove it — on failure return the
error at once — and clear the field; with no redirection active this step is
skipped; then shut the listener down according to the mode. -/
def stop (env : FirewallEnv) (p : ProxyState) :
    Option Err × ProxyState × List StopEffect :=
  match p.redirection with
  | some r =>
    match env.disableRedirectionResult r with
    | some e => (some e, p, [StopEffect.disableRedirection r])
    | none =>
      stopShutdown { p with redirection := none } [StopEffect.disableRedirection r]
  | none => stopShutdown p []

/-- The external world as `Configure`/`ConfigureTLS` see it: the outcome of
loading a proxy script from a path, the firewall's initial forwarding state,
the interface name, the outcome of installing a redirection, and the outcomes
of parsing the CA key pair (`tls.X509KeyPair` over the two files read, whose
read errors the code ignores) and of `x509.ParseCertificate` on its leaf. -/
structure ConfigEnv where
  loadScriptResult : String → Except Err ProxyScript
  forwardingEnabledAtStart : Bool
  interfaceName : String
  enableRedirectionResult : Redirection → Option Err
  x509KeyPairResult : Except Err Cert
  parseLeafResult : Cert → Except Err Cert

/-- The proxy and world state `Configure`/`ConfigureTLS` mutate: the fields of
`HTTPProxy` they write plus the externally observable firewall state (whether
IP forwarding is enabled, whether the OS-level redirection rule is installed)
and whether the process-wide goproxy CA configuration was installed. -/
structure ConfigState where
  name : String
  address : String
  serverAddr : String
  script : Option ProxyScript
  redirection : Option Redirection
  certFile : String
  keyFile : String
  isTLS : Bool
  forwardingEnabled : Bool
  redirectionInstalled : Bool
  goproxyCaInstalled : Bool

/-- `Configure` (src/modules/http_proxy_base.go lines 133-169): set the
address; when a script path is given load it, returning its error on failure;
configure the HTTP server address; enable IP forwarding when it is off; build
the redirection descriptor, store it in the `Redirection` field and ask the
firewall to install it, returning its error on failure. Returns the error (or
`none`) together with the state as left behind — the Go method mutates the
receiver in place, so state changed before a failing step stays changed. -/
def configure (env : ConfigEnv) (address : String) (proxyPort : Int)
    (httpPort : Int) (scriptPath : String) (p : ConfigState) :
    Option Err × ConfigState :=
  let p0 := { p with address := address }
  let scriptStep : Option Err × ConfigState :=
    if scriptPath = "" then (none, p0)
    else
      match env.loadScriptResult scriptPath with
      | Except.error e => (some e, p0)
      | Except.ok s => (none, { p0 with script := some s })
  match scriptStep with
  | (some e, p1) => (some e, p1)
  | (none, p1) =>
    let p2 := { p1 with serverAddr := address ++ ":" ++ toString proxyPort }
    let p3 :=
      if p2.forwardingEnabled = false then { p2 with forwardingEnabled := true }
      else p2
    let r : Redirection :=
      { interfaceName := env.interfaceName,
        protocol := "TCP",
        srcPort := httpPort,
        dstAddress := address,
        dstPort := proxyPort }
    let p4 := { p3 with redirection := some r }
    match env.enableRedirectionResult r with
    | some e => (some e, p4)
    | none => (none, { p4 with redirectionInstalled := true })

/-- `ConfigureTLS` (src/modules/http_proxy_base.go lines 204-234): run
`Configure`, returning its error on failure; switch to TLS mode, rename, store
the CA file paths; parse the CA key pair and its leaf certificate, returning
their error on failure; on success install the process-wide goproxy CA and
MITM connect actions. Like `Configure`, state mutated before a failing step
stays as it was left. -/
def configureTLS (env : ConfigEnv) (address : String) (proxyPort : Int)
    (httpPort : Int) (scriptPath : String) (certFile : String)
    (keyFile : String) (p : ConfigState) : Option Err × ConfigState :=
  match configure env address proxyPort httpPort scriptPath p with
  | (some e, p1) => (some e, p1)
  | (none, p1) =>
    let p2 := { p1 with isTLS := true, name := "https.proxy",
                        certFile := certFile, keyFile := keyFile }
    match env.x509KeyPairResult with
    | Except.error e => (some e, p2)
    | Except.ok ca =>
      match env.parseLeafResult ca with
      | Except.error e => (some e, p2)
      | Except.ok _ => (none, { p2 with goproxyCaInstalled := true })

/-- A fresh `ConfigState`, as after `NewHTTPProxy` with the firewall in a
given starting state. -/
def initialState (env : ConfigEnv) : ConfigState :=
  { name := "http.proxy",
    address := "",
    serverAddr := "",
    script := none,
    redirection := none,
    certFile := "",
    keyFile := "",
    isTLS := false,
    forwardingEnabled := env.forwardingEnabledAtStart,
    redirectionInstalled := false,
    goproxyCaInstalled := false }

/-- Helper: when `sep` does not occur in `l`, `splitOnFirst` returns the whole
list and no remainder. -/
theorem splitOnFirst_not_mem (sep : Char) (l : List Char) (h : sep ∉ l) :
    splitOnFirst sep l = (l, none) := by
  induction l with
  | nil => rfl
  | cons c rest ih =>
    have h1 : ¬ c = sep := fun hc => h (hc ▸ List.mem_cons_self c rest)
    have h2 : sep ∉ rest := fun hm => h (List.mem_cons_of_mem c hm)
    simp [splitOnFirst, h1, ih h2]

/-- C4: the host filter `doProxy` rejects the empty host, rejects every host
beginning with "localhost" or with "127.0.0.1" (in particular "localhost" and
"127.0.0.1:8080"), and accepts "example.com"; as a plain function of the host
string it is pure by construction. -/
theorem doProxy_host_filter (host : String) :
    doProxy "" = false ∧
    ((hasPrefix host "localhost" = true ∨ hasPrefix host "127.0.0.1" = true) →
      doProxy host = false) ∧
    doProxy "localhost" = false ∧
    doProxy "127.0.0.1:8080" = false ∧
    doProxy "example.com" = true := by
  refine ⟨by decide, ?_, by decide, by decide, by decide⟩
  intro h
  by_cases he : host = ""
  · simp [doProxy, he]
  · have hany : blacklist.any (fun b => hasPrefix host b) = true := by
      rcases h with h | h <;> simp [blacklist, h]
    simp [doProxy, he, hany]

/-- Witness for the host-filter theorem at the concrete host
"localhost:9090", discharging the begins-with hypothesis there. -/
theorem doProxy_host_filter_witness :
    hasPrefix "localhost:9090" "localhost" = true ∧
    doProxy "localhost:9090" = false :=
  ⟨by decide,
   (doProxy_host_filter "localhost:9090").2.1 (Or.inl (by decide))⟩

/-- C6: a buffer equal to the literal successful-CONNECT handshake bytes is
discarded by `dumbResponseWriter.Write` — the underlying raw connection
receives nothing — while any other buffer passes through unmodified and the
reported count equals the buffer length. -/
theorem dumbWrite_intercept (buf : List Byte) (conn : ConnState) :
    (buf = okHandshakeBytes → (dumbWrite buf conn).2 = conn) ∧
    (buf ≠ okHandshakeBytes →
      (dumbWrite buf conn).2.written = conn.written ++ buf ∧
      (dumbWrite buf conn).1 = buf.length) := by
  constructor
  · intro h; simp [dumbWrite, h]
  · intro h; simp [dumbWrite, h]

/-- Witness for the write-interception theorem: the handshake bytes leave an
empty sink empty, and the buffer [72, 105] passes through in full. -/
theorem dumbWrite_intercept_witness :
    (dumbWrite okHandshakeBytes ⟨[]⟩).2 = (⟨[]⟩ : ConnState) ∧
    (dumbWrite [72, 105] ⟨[]⟩).2.written = [] ++ [72, 105] ∧
    (dumbWrite [72, 105] ⟨[]⟩).1 = [72, 105].length :=
  ⟨(dumbWrite_intercept okHandshakeBytes ⟨[]⟩).1 rfl,
   (dumbWrite_intercept [72, 105] ⟨[]⟩).2 (by decide)⟩

/-- C10: in the hostname/port split of the per-connection TLS-configuration
function, a host with no colon keeps the whole string as hostname with port
443, a first-colon suffix that `strconv.Atoi` rejects also defaults the port
to 443, and concretely "example.com", "example.com:443" and "example.com:abc"
all resolve to the cache key ("example.com", 443). -/
theorem parseHostPort_port_defaults (host : String) :
    (':' ∉ host.data → parseHostPort host = (host, 443)) ∧
    (∀ hd tl, splitOnFirst ':' host.data = (hd, some tl) →
      atoi (String.mk tl) = none → parseHostPort host = (String.mk hd, 443)) ∧
    parseHostPort "example.com" = ("example.com", 443) ∧
    parseHostPort "example.com:443" = ("example.com", 443) ∧
    parseHostPort "example.com:abc" = ("example.com", 443) := by
  refine ⟨?_, ?_, by decide, by decide, by decide⟩
  · intro h
    simp [parseHostPort, splitOnFirst_not_mem ':' host.data h]
  · intro hd tl heq hatoi
    simp [parseHostPort, heq, hatoi]

/-- Witness for the port-defaulting theorem at the hosts "example" (no colon)
and "example.com:abc" (unparseable port), discharging the hypotheses there. -/
theorem parseHostPort_port_defaults_witness :
    parseHostPort "example" = ("example", 443) ∧
    parseHostPort "example.com:abc" = ("example.com", 443) :=
  ⟨(parseHostPort_port_defaults "example").1 (by decide),
   (parseHostPort_port_defaults "example.com:abc").2.1
     "example.com".data "abc".data (by decide) (by decide)⟩

/-- C1: a cache hit returns the stored certificate without touching the
signing operation or the state, and after any successful call a second call
whose host resolves to the same (hostname, port) key returns the identical
configuration and leaves the state — in particular the signing-invocation
count — unchanged: no re-signing. -/
theorem tlsConfigFromCA_cache_hit (env : SignEnv) (host host2 : String)
    (st st1 : CacheState) (c : TLSConfig)
    (hsame : parseHostPort host2 = parseHostPort host)
    (h1 : tlsConfigFromCA env host st = (Except.ok c, st1)) :
    tlsConfigFromCA env host2 st1 = (Except.ok c, st1) ∧
    (∀ cert,
      getCachedCert (parseHostPort host).1 (parseHostPort host).2 st.cache = some cert →
      tlsConfigFromCA env host st =
        (Except.ok { insecureSkipVerify := true, certificates := [cert] }, st)) := by
  constructor
  · rcases hc : getCachedCert (parseHostPort host).1 (parseHostPort host).2 st.cache
      with _ | cert
    · rcases hs : env.signResult st.signCount with e | cert
      · simp [tlsConfigFromCA, hc, hs] at h1
      · simp [tlsConfigFromCA, hc, hs] at h1
        obtain ⟨hc1, hst1⟩ := h1
        simp [tlsConfigFromCA, hsame, hc1, ← hst1, getCachedCert, setCachedCert]
    · simp [tlsConfigFromCA, hc] at h1
      obtain ⟨hc1, hst1⟩ := h1
      simp [tlsConfigFromCA, hsame, hc1, ← hst1, hc]
  · intro cert hc
    simp [tlsConfigFromCA, hc]

/-- Witness for the cache-hit theorem: with a signer always yielding
certificate 7, the first call for "example.com" on an empty cache signs and
caches, and the theorem yields that the second call returns the same
configuration and state. -/
theorem tlsConfigFromCA_cache_hit_witness :
    tlsConfigFromCA ⟨fun _ => Except.ok 7⟩ "example.com"
        ⟨[(("example.com", 443), 7)], 1⟩ =
      (Except.ok ⟨true, [7]⟩, ⟨[(("example.com", 443), 7)], 1⟩) :=
  (tlsConfigFromCA_cache_hit ⟨fun _ => Except.ok 7⟩ "example.com" "example.com"
    ⟨[], 0⟩ ⟨[(("example.com", 443), 7)], 1⟩ ⟨true, [7]⟩ rfl (by decide)).1

/-- C2: when the signing operation fails on a cache miss, the call returns
that error, increments only the signing count and leaves the cache unchanged,
so a later call for the same key misses again and invokes the signer again
(the signing count reaches two more than before, whatever the retry yields). -/
theorem tlsConfigFromCA_sign_failure (env : SignEnv) (host : String)
    (st : CacheState) (e : Err)
    (hmiss :
      getCachedCert (parseHostPort host).1 (parseHostPort host).2 st.cache = none)
    (hfail : env.signResult st.signCount = Except.error e) :
    tlsConfigFromCA env host st =
      (Except.error e, { cache := st.cache, signCount := st.signCount + 1 }) ∧
    (tlsConfigFromCA env host
        { cache := st.cache, signCount := st.signCount + 1 }).2.signCount =
      st.signCount + 2 := by
  constructor
  · simp [tlsConfigFromCA, hmiss, hfail]
  · rcases hs : env.signResult (st.signCount + 1) with e2 | cert <;>
      simp [tlsConfigFromCA, hmiss, hs]

/-- Witness for the signing-failure theorem: a signer that always fails with
"boom" on the empty cache yields the error, an unchanged cache, and a second
signing attempt on the next call. -/
theorem tlsConfigFromCA_sign_failure_witness :
    tlsConfigFromCA ⟨fun _ => Except.error "boom"⟩ "example.com" ⟨[], 0⟩ =
      (Except.error "boom", ⟨[], 1⟩) ∧
    (tlsConfigFromCA ⟨fun _ => Except.error "boom"⟩ "example.com"
        ⟨[], 1⟩).2.signCount = 2 :=
  tlsConfigFromCA_sign_failure ⟨fun _ => Except.error "boom"⟩ "example.com"
    ⟨[], 0⟩ "boom" (by decide) rfl

/-- C5 counterexample: when the SNI peek fails on malformed/non-TLS bytes the
goroutine of `httpsWorker` logs a warning and returns, but — contrary to the
claim — it never closes the connection: no close action occurs among its
effects at this concrete failing input. -/
theorem httpsWorkerConn_close_counterexample :
    HandlerEffect.closeConn ∉
      httpsWorkerConn (Except.error "record is not a TLS handshake") := by
  decide

/-- C5 amended: on a failed SNI peek, and likewise on an empty extracted
hostname, a warning is logged and no synthetic CONNECT request is handed to
the proxy core, but the connection is not closed by the handler (the
goroutine merely returns); for a well-formed ClientHello carrying a non-empty
SNI hostname h, a synthetic request with method CONNECT and target host:port
h:443 is handed to the proxy core's serving entry point. -/
theorem httpsWorkerConn_amended (e : Err) (hostname : String) :
    (httpsWorkerConn (Except.error e) =
        [HandlerEffect.logWarning ("Error reading SNI: " ++ e ++ ".")] ∧
      (∀ req, HandlerEffect.serve req ∉ httpsWorkerConn (Except.error e)) ∧
      HandlerEffect.closeConn ∉ httpsWorkerConn (Except.error e)) ∧
    (httpsWorkerConn (Except.ok "") =
        [HandlerEffect.logWarning "Client does not support SNI."] ∧
      (∀ req, HandlerEffect.serve req ∉ httpsWorkerConn (Except.ok "")) ∧
      HandlerEffect.closeConn ∉ httpsWorkerConn (Except.ok "")) ∧
    (hostname ≠ "" →
      HandlerEffect.serve
          { method := "CONNECT", host := hostname, opaqueURL := hostname,
            urlHost := joinHostPort hostname "443", urlPath := "",
            remoteAddr := "" }
        ∈ httpsWorkerConn (Except.ok hostname)) ∧
    (':' ∉ hostname.data → joinHostPort hostname "443" = hostname ++ ":443") := by
  refine ⟨⟨rfl, ?_, ?_⟩, ⟨rfl, ?_, ?_⟩, ?_, ?_⟩
  · intro req; simp [httpsWorkerConn]
  · simp [httpsWorkerConn]
  · intro req; simp [httpsWorkerConn]
  · simp [httpsWorkerConn]
  · intro h
    simp [httpsWorkerConn, h]
  · intro h
    simp [joinHostPort, h, String.append_assoc]

/-- Witness for the amended SNI-bridge theorem at the SNI hostname
"example.com": the synthetic CONNECT to example.com:443 is handed over. -/
theorem httpsWorkerConn_amended_witness :
    HandlerEffect.serve
        { method := "CONNECT", host := "example.com", opaqueURL := "example.com",
          urlHost := joinHostPort "example.com" "443", urlPath := "",
          remoteAddr := "" }
      ∈ httpsWorkerConn (Except.ok "example.com") ∧
    joinHostPort "example.com" "443" = "example.com" ++ ":443" :=
  ⟨(httpsWorkerConn_amended "x" "example.com").2.2.1 (by decide),
   (httpsWorkerConn_amended "x" "example.com").2.2.2 (by decide)⟩

/-- C7: with a script loaded, a synthetic action from the request hook makes
the exchange return that synthetic response having invoked only the request
leg — the response-leg hook is never invoked — and record exactly one event
carrying To = remote address up to the first colon, the request's method,
host and path, and the action body's size; when both hooks pass through, no
event is recorded. -/
theorem hook_dispatcher_short_circuit (s : ProxyScript)
    (upstream : Request → Response) (req : Request) :
    (∀ jsres, s.onRequest req = some jsres →
      exchange (some s) upstream req =
        (toResponse jsres req,
         [{ toAddr := String.mk (splitOnFirst ':' req.remoteAddr.data).1,
            method := req.method, host := req.host, path := req.urlPath,
            size := jsres.body.data.length }],
         [Leg.request]) ∧
      Leg.response ∉ (exchange (some s) upstream req).2.2) ∧
    (s.onRequest req = none → s.onResponse (upstream req) = none →
      (exchange (some s) upstream req).2.1 = []) := by
  constructor
  · intro jsres h
    constructor
    · simp [exchange, onRequestHandler, h, logAction]
    · simp [exchange, onRequestHandler, h]
  · intro h1 h2
    simp [exchange, onRequestHandler, onResponseHandler, h1, h2]

/-- Witness for the hook-dispatcher theorem: a concrete script whose request
hook replaces everything with body "spoof" and whose response hook never
fires, on a concrete GET request. -/
theorem hook_dispatcher_short_circuit_witness :
    exchange (some ⟨fun _ => some ⟨"spoof"⟩, fun _ => none⟩)
        (fun r => ⟨r, "upstream"⟩)
        ⟨"GET", "example.com", "", "", "/index.html", "10.0.0.9:51234"⟩ =
      (⟨⟨"GET", "example.com", "", "", "/index.html", "10.0.0.9:51234"⟩, "spoof"⟩,
       [⟨"10.0.0.9", "GET", "example.com", "/index.html", 5⟩],
       [Leg.request]) :=
  ((hook_dispatcher_short_circuit ⟨fun _ => some ⟨"spoof"⟩, fun _ => none⟩
      (fun r => ⟨r, "upstream"⟩)
      ⟨"GET", "example.com", "", "", "/index.html", "10.0.0.9:51234"⟩).1
    ⟨"spoof"⟩ rfl).1

/-- C8: `Stop` first asks the firewall to remove the active redirection —
skipping that call entirely when none is active — and only afterwards shuts
the listener down: the shutdown effect follows the removal effect; in TLS
mode it flips the running flag to false and closes the raw SNI accept
listener immediately, in PLAIN mode it performs a graceful shutdown bounded
by the 5-second timeout. -/
theorem stop_removes_redirection_then_shuts_down (env : FirewallEnv)
    (p : ProxyState)
    (hok : ∀ r, p.redirection = some r → env.disableRedirectionResult r = none) :
    (stop env p).2.2 =
      (match p.redirection with
       | some r => [StopEffect.disableRedirection r]
       | none => []) ++
      [if p.isTLS then StopEffect.closeSNIListener
       else StopEffect.gracefulShutdown 5] ∧
    (p.isTLS = true → (stop env p).2.1.isRunning = false) ∧
    (stop env p).1 = none := by
  rcases hr : p.redirection with _ | r
  · cases hTLS : p.isTLS <;> simp [stop, hr, stopShutdown, hTLS]
  · have hd := hok r hr
    cases hTLS : p.isTLS <;> simp [stop, hr, hd, stopShutdown, hTLS]

/-- Witness for the `Stop` theorem: a concrete TLS-mode proxy with an active
redirection and a firewall that removes it successfully. -/
theorem stop_removes_redirection_then_shuts_down_witness :
    (stop ⟨fun _ => none⟩
        ⟨some ⟨"eth0", "TCP", 443, "10.0.0.1", 8083⟩, true, true⟩).2.2 =
      [StopEffect.disableRedirection ⟨"eth0", "TCP", 443, "10.0.0.1", 8083⟩,
       StopEffect.closeSNIListener] ∧
    (stop ⟨fun _ => none⟩
        ⟨some ⟨"eth0", "TCP", 443, "10.0.0.1", 8083⟩, true, true⟩).2.1.isRunning
      = false :=
  ⟨(stop_removes_redirection_then_shuts_down ⟨fun _ => none⟩
      ⟨some ⟨"eth0", "TCP", 443, "10.0.0.1", 8083⟩, true, true⟩
      (fun _ _ => rfl)).1,
   (stop_removes_redirection_then_shuts_down ⟨fun _ => none⟩
      ⟨some ⟨"eth0", "TCP", 443, "10.0.0.1", 8083⟩, true, true⟩
      (fun _ _ => rfl)).2.1 rfl⟩

/-- Helper: a successful `Configure` ends with the redirection installed —
the only error-free path runs through `EnableRedirection` succeeding. -/
theorem configure_ok_installed (env : ConfigEnv) (address : String)
    (proxyPort httpPort : Int) (scriptPath : String) (p q : ConfigState)
    (h : configure env address proxyPort httpPort scriptPath p = (none, q)) :
    q.redirectionInstalled = true := by
  by_cases hs : scriptPath = ""
  · rcases he : env.enableRedirectionResult
        { interfaceName := env.interfaceName, protocol := "TCP",
          srcPort := httpPort, dstAddress := address, dstPort := proxyPort }
      with _ | e
    · simp [configure, hs, he] at h
      simp [← h]
    · simp [configure, hs, he] at h
  · rcases hl : env.loadScriptResult scriptPath with e | s
    · simp [configure, hs, hl] at h
    · rcases he : env.enableRedirectionResult
          { interfaceName := env.interfaceName, protocol := "TCP",
            srcPort := httpPort, dstAddress := address, dstPort := proxyPort }
        with _ | e
      · simp [configure, hs, hl, he] at h
        simp [← h]
      · simp [configure, hs, hl, he] at h

/-- A configuration environment whose script loading and redirection
installation succeed while parsing the CA material fails. -/
def badCAEnv : ConfigEnv :=
  { loadScriptResult := fun _ => Except.ok ⟨fun _ => none, fun _ => none⟩,
    forwardingEnabledAtStart := false,
    interfaceName := "eth0",
    enableRedirectionResult := fun _ => none,
    x509KeyPairResult := Except.error "failed to find any PEM data",
    parseLeafResult := fun c => Except.ok c }

/-- C9 counterexample: with script loading and redirection installation
succeeding and the CA material unparsable, `ConfigureTLS` does return an
error synchronously, yet the redirection installed by `Configure` and the
forwarding it enabled remain in effect after the failed call — partial state
is left running. -/
theorem configureTLS_partial_state_counterexample :
    (configureTLS badCAEnv "127.0.0.1" 8083 80 "" "bad.pem" "bad.key"
        (initialState badCAEnv)).1 = some "failed to find any PEM data" ∧
    (configureTLS badCAEnv "127.0.0.1" 8083 80 "" "bad.pem" "bad.key"
        (initialState badCAEnv)).2.redirectionInstalled = true ∧
    (configureTLS badCAEnv "127.0.0.1" 8083 80 "" "bad.pem" "bad.key"
        (initialState badCAEnv)).2.forwardingEnabled = true :=
  ⟨rfl, rfl, rfl⟩

/-- C9 amended: `Configure`/`ConfigureTLS` errors are reported synchronously
to the caller, but partial state can remain in effect: when the CA material
fails to parse after a successful `Configure`, `ConfigureTLS` returns that
error while the state keeps everything `Configure` set up — in particular the
installed redirection (and, with it, the enabled forwarding and any loaded
script). -/
theorem configureTLS_error_reporting_amended (env : ConfigEnv)
    (address : String) (proxyPort httpPort : Int)
    (scriptPath certFile keyFile : String) (p q : ConfigState) (e : Err)
    (hconf : configure env address proxyPort httpPort scriptPath p = (none, q))
    (hx : env.x509KeyPairResult = Except.error e) :
    configureTLS env address proxyPort httpPort scriptPath certFile keyFile p =
      (some e,
       { q with isTLS := true, name := "https.proxy",
                certFile := certFile, keyFile := keyFile }) ∧
    q.redirectionInstalled = true := by
  constructor
  · simp [configureTLS, hconf, hx]
  · exact configure_ok_installed env address proxyPort httpPort scriptPath p q hconf

/-- Witness for the amended configuration-error theorem on the concrete
environment with unparsable CA material. -/
theorem configureTLS_error_reporting_amended_witness :
    configureTLS badCAEnv "127.0.0.1" 8083 80 "" "bad.pem" "bad.key"
        (initialState badCAEnv) =
      (some "failed to find any PEM data",
       { name := "https.proxy", address := "127.0.0.1",
         serverAddr := "127.0.0.1:8083", script := none,
         redirection := some ⟨"eth0", "TCP", 80, "127.0.0.1", 8083⟩,
         certFile := "bad.pem", keyFile := "bad.key", isTLS := true,
         forwardingEnabled := true, redirectionInstalled := true,
         goproxyCaInstalled := false }) :=
  (configureTLS_error_reporting_amended badCAEnv "127.0.0.1" 8083 80 ""
    "bad.pem" "bad.key" (initialState badCAEnv)
    { name := "http.proxy", address := "127.0.0.1",
      serverAddr := "127.0.0.1:8083", script := none,
      redirection := some ⟨"eth0", "TCP", 80, "127.0.0.1", 8083⟩,
      certFile := "", keyFile := "", isTLS := false,
      forwardingEnabled := true, redirectionInstalled := true,
      goproxyCaInstalled := false }
    "failed to find any PEM data" rfl rfl).1

end Bettercap
